import Mathlib

/-!
Shallow embedding of the ESP32 robotic-arm BLE controller (src/app.js):
joint-angle model, command dispatch, preset sequences and disconnect
handling, followed by theorems about its invariants and error behaviour.
-/

/-- The five joints of the arm (keys of the jointAngles object). -/
inductive Joint where
  | base | shoulder | elbow | wrist | gripper
deriving DecidableEq, Repr

/-- Joint-angle state: the jointAngles object. Angles are integer degrees. -/
structure JointState where
  base : Int
  shoulder : Int
  elbow : Int
  wrist : Int
  gripper : Int
deriving DecidableEq, Repr

/-- Initial value of the jointAngles object (app.js lines 16-22). -/
def jointAngles : JointState :=
  { base := 90, shoulder := 130, elbow := 90, wrist := 90, gripper := 90 }

/-- Read one joint field of the state. -/
def JointState.get (s : JointState) : Joint → Int
  | Joint.base => s.base
  | Joint.shoulder => s.shoulder
  | Joint.elbow => s.elbow
  | Joint.wrist => s.wrist
  | Joint.gripper => s.gripper

/-- Write one joint field of the state. -/
def JointState.set (s : JointState) : Joint → Int → JointState
  | Joint.base, a => { s with base := a }
  | Joint.shoulder, a => { s with shoulder := a }
  | Joint.elbow, a => { s with elbow := a }
  | Joint.wrist, a => { s with wrist := a }
  | Joint.gripper, a => { s with gripper := a }

/-- updateAngleDisplay (app.js lines 62-68): stores the angle in
jointAngles (the DOM text update is not modelled). -/
def updateAngleDisplay (joint : Joint) (angle : Int) (s : JointState) : JointState :=
  s.set joint angle

/-- The commandMap table (app.js lines 25-36).  The source maps each token
to a string such as base-inc; here the string joint-inc resp. joint-dec is
modelled as the pair (joint, true) resp. (joint, false). -/
def commandMap : Char → Option (Joint × Bool)
  | 'A' => some (Joint.base, true)
  | 'B' => some (Joint.base, false)
  | 'C' => some (Joint.shoulder, true)
  | 'D' => some (Joint.shoulder, false)
  | 'E' => some (Joint.elbow, true)
  | 'F' => some (Joint.elbow, false)
  | 'G' => some (Joint.wrist, true)
  | 'H' => some (Joint.wrist, false)
  | 'I' => some (Joint.gripper, true)
  | 'J' => some (Joint.gripper, false)
  | _ => none

/-- The closed set of ten command tokens (keys of commandMap). -/
def commandTokens : List Char := ['A', 'B', 'C', 'D', 'E', 'F', 'G', 'H', 'I', 'J']

/-- updateLocalAngle (app.js lines 142-177): a switch on the command with
no default branch; each case stores a one-sidedly clamped new angle for
exactly one joint via updateAngleDisplay. -/
def updateLocalAngle (command : Char) (s : JointState) : JointState :=
  let stepSize : Int := 10
  match command with
  | 'A' => updateAngleDisplay Joint.base (min (s.base + stepSize) 180) s
  | 'B' => updateAngleDisplay Joint.base (max (s.base - stepSize) 0) s
  | 'C' => updateAngleDisplay Joint.shoulder (min (s.shoulder + stepSize) 210) s
  | 'D' => updateAngleDisplay Joint.shoulder (max (s.shoulder - stepSize) 120) s
  | 'E' => updateAngleDisplay Joint.elbow (min (s.elbow + stepSize) 180) s
  | 'F' => updateAngleDisplay Joint.elbow (max (s.elbow - stepSize) 0) s
  | 'G' => updateAngleDisplay Joint.wrist (min (s.wrist + stepSize) 180) s
  | 'H' => updateAngleDisplay Joint.wrist (max (s.wrist - stepSize) 0) s
  | 'I' => updateAngleDisplay Joint.gripper (min (s.gripper + stepSize) 180) s
  | 'J' => updateAngleDisplay Joint.gripper (max (s.gripper - stepSize) 0) s
  | _ => s

/-- Severity levels of addLog (app.js line 47). -/
inductive Severity where
  | info | success | error | warning
deriving DecidableEq, Repr

/-- The log messages the modelled control paths emit, abstracted from
their strings (timestamps and interpolated error texts dropped). -/
inductive LogEntry where
  | notConnectedError
  | sentCommand (c : Char)
  | sendError (c : Char)
  | connectedNotice
  | disconnectedNotice
  | movingToHome
  | reachedHome
  | movingToGrab
  | reachedGrab
  | movingToReach
  | reachedReach
  | resettingAll
deriving DecidableEq, Repr

/-- The severity string each addLog call site passes (app.js). -/
def LogEntry.severity : LogEntry → Severity
  | LogEntry.notConnectedError => Severity.error
  | LogEntry.sentCommand _ => Severity.success
  | LogEntry.sendError _ => Severity.error
  | LogEntry.connectedNotice => Severity.success
  | LogEntry.disconnectedNotice => Severity.info
  | LogEntry.movingToHome => Severity.info
  | LogEntry.reachedHome => Severity.success
  | LogEntry.movingToGrab => Severity.info
  | LogEntry.reachedGrab => Severity.success
  | LogEntry.movingToReach => Severity.info
  | LogEntry.reachedReach => Severity.success
  | LogEntry.resettingAll => Severity.info

/-- Observable controller state: the joint model, the bytes written to the
BLE characteristic in order, and the console log. -/
structure CtrlState where
  joints : JointState
  sent : List Char
  log : List LogEntry
deriving DecidableEq, Repr

/-- addLog (app.js lines 47-55): appends an entry to the console log. -/
def addLog (e : LogEntry) (s : CtrlState) : CtrlState :=
  { s with log := s.log ++ [e] }

/-- Initial controller state of a session. -/
def initialCtrl : CtrlState :=
  { joints := jointAngles, sent := [], log := [] }

/-- sendCommand (app.js lines 115-136).  The booleans device and
rxCharacteristic model whether those globals are non-null; ok models
whether the writeValue promise resolves.  If not connected it logs an
error and returns with no other effect; on a successful write it records
the byte, logs success and applies updateLocalAngle; if the write is
rejected the catch block logs the error and nothing else changes. -/
def sendCommand (device rxCharacteristic ok : Bool) (command : Char)
    (s : CtrlState) : CtrlState :=
  if !device || !rxCharacteristic then
    addLog LogEntry.notConnectedError s
  else if ok then
    { joints := updateLocalAngle command s.joints,
      sent := s.sent ++ [command],
      log := s.log ++ [LogEntry.sentCommand command] }
  else
    addLog (LogEntry.sendError command) s

/-- Environment a single dispatch runs in: the device is disconnected
(globals are null), the write is attempted but rejected, or the write
succeeds. -/
inductive StepEnv where
  | disconnected | failSend | okSend
deriving DecidableEq, Repr

/-- One dispatch of a sequence step under its environment. -/
def sendCommandE (e : StepEnv) (command : Char) (s : CtrlState) : CtrlState :=
  match e with
  | StepEnv.disconnected => sendCommand false false true command s
  | StepEnv.failSend => sendCommand true true false command s
  | StepEnv.okSend => sendCommand true true true command s

/-- Run a list of commands in order, one environment per dispatch; when
the environment list runs out the remaining dispatches succeed.  Models
the await-per-command loops of the preset functions (the setTimeout
delays carry no state and are dropped). -/
def runCommands : List StepEnv → List Char → CtrlState → CtrlState
  | _, [], s => s
  | [], cmd :: rest, s => runCommands [] rest (sendCommandE StepEnv.okSend cmd s)
  | e :: es, cmd :: rest, s => runCommands es rest (sendCommandE e cmd s)

/-- The 25-command list of moveToHome (app.js line 254). -/
def homeCommands : List Char :=
  ['B', 'B', 'B', 'B', 'B', 'D', 'D', 'D', 'D', 'D', 'F', 'F', 'F', 'F', 'F',
   'H', 'H', 'H', 'H', 'H', 'J', 'J', 'J', 'J', 'J']

/-- moveToHome (app.js lines 252-269): logs, sends the 25 commands, then
explicitly resets every displayed angle to 90, then logs success. -/
def moveToHome (envs : List StepEnv) (s : CtrlState) : CtrlState :=
  let s1 := addLog LogEntry.movingToHome s
  let s2 := runCommands envs homeCommands s1
  let j := updateAngleDisplay Joint.gripper 90
    (updateAngleDisplay Joint.wrist 90
      (updateAngleDisplay Joint.elbow 90
        (updateAngleDisplay Joint.shoulder 90
          (updateAngleDisplay Joint.base 90 s2.joints))))
  addLog LogEntry.reachedHome { s2 with joints := j }

/-- One step of a preset sequence: a command and its repeat count. -/
structure SeqStep where
  cmd : Char
  count : Nat
deriving DecidableEq, Repr

/-- The grab sequence (app.js lines 278-282). -/
def grabSequence : List SeqStep :=
  [{ cmd := 'D', count := 3 }, { cmd := 'E', count := 2 }, { cmd := 'J', count := 5 }]

/-- The reach sequence (app.js lines 301-306). -/
def reachSequence : List SeqStep :=
  [{ cmd := 'C', count := 4 }, { cmd := 'E', count := 3 },
   { cmd := 'G', count := 2 }, { cmd := 'I', count := 3 }]

/-- The dispatch order of a sequence: each command repeated its count. -/
def flattenSeq (steps : List SeqStep) : List Char :=
  (steps.map (fun st => List.replicate st.count st.cmd)).flatten

/-- moveToGrab (app.js lines 274-292): logs, dispatches every repetition
of every step in order, then logs success. -/
def moveToGrab (envs : List StepEnv) (s : CtrlState) : CtrlState :=
  addLog LogEntry.reachedGrab
    (runCommands envs (flattenSeq grabSequence) (addLog LogEntry.movingToGrab s))

/-- moveToReach (app.js lines 297-316): logs, dispatches every repetition
of every step in order, then logs success. -/
def moveToReach (envs : List StepEnv) (s : CtrlState) : CtrlState :=
  addLog LogEntry.reachedReach
    (runCommands envs (flattenSeq reachSequence) (addLog LogEntry.movingToReach s))

/-- resetAll (app.js lines 321-324): logs and runs moveToHome. -/
def resetAll (envs : List StepEnv) (s : CtrlState) : CtrlState :=
  moveToHome envs (addLog LogEntry.resettingAll s)

/-- Whole-app state for the connection lifecycle: whether the device and
rxCharacteristic globals are non-null, plus the controller state. -/
structure AppState where
  device : Bool
  rxCharacteristic : Bool
  ctrl : CtrlState
deriving DecidableEq, Repr

/-- onDisconnected (app.js lines 237-243): nulls the connection globals
and calls updateConnectionStatus(false), which logs the disconnect notice
and refreshes the UI.  It touches neither jointAngles nor any running
sequence. -/
def onDisconnected (s : AppState) : AppState :=
  { device := false, rxCharacteristic := false,
    ctrl := addLog LogEntry.disconnectedNotice s.ctrl }

/-- The keyMap of the keydown handler (app.js lines 371-382). -/
def keyMap : Char → Option Char
  | 'a' => some 'A'
  | 'A' => some 'A'
  | 'b' => some 'B'
  | 'B' => some 'B'
  | 'c' => some 'C'
  | 'C' => some 'C'
  | 'd' => some 'D'
  | 'D' => some 'D'
  | 'e' => some 'E'
  | 'E' => some 'E'
  | 'f' => some 'F'
  | 'F' => some 'F'
  | 'g' => some 'G'
  | 'G' => some 'G'
  | 'h' => some 'H'
  | 'H' => some 'H'
  | 'i' => some 'I'
  | 'I' => some 'I'
  | 'j' => some 'J'
  | 'J' => some 'J'
  | _ => none

/-- The keydown handler (app.js lines 368-388): returns early when the
connection globals are null, dispatches the mapped token when the key is
in keyMap, and otherwise does nothing. -/
def keydownHandler (device rxCharacteristic ok : Bool) (key : Char)
    (s : CtrlState) : CtrlState :=
  if !device || !rxCharacteristic then s
  else
    match keyMap key with
    | some cmd => sendCommand device rxCharacteristic ok cmd s
    | none => s

/-- Apply a list of tokens to the joint model alone (the local-state
effect of a run of successful dispatches). -/
def applyCommands (cmds : List Char) (s : JointState) : JointState :=
  cmds.foldl (fun j c => updateLocalAngle c j) s

/-- Modelled from the spec (section 3 table): the per-joint minimum bound
minBound(joint). -/
def specMinBound : Joint → Int
  | Joint.shoulder => 120
  | _ => 0

/-- Modelled from the spec (section 3 table): the per-joint maximum bound
maxBound(joint). -/
def specMaxBound : Joint → Int
  | Joint.shoulder => 210
  | _ => 180

/-- Modelled from the spec (glossary): clamp a value to a closed range. -/
def clampSpec (x lo hi : Int) : Int := max lo (min x hi)

/-- The spec invariant of section 3: every joint angle lies within its
bounds. -/
def inBounds (s : JointState) : Prop :=
  0 ≤ s.base ∧ s.base ≤ 180 ∧
  120 ≤ s.shoulder ∧ s.shoulder ≤ 210 ∧
  0 ≤ s.elbow ∧ s.elbow ≤ 180 ∧
  0 ≤ s.wrist ∧ s.wrist ≤ 180 ∧
  0 ≤ s.gripper ∧ s.gripper ≤ 180

instance (s : JointState) : Decidable (inBounds s) := by
  unfold inBounds; exact inferInstance

/-- The subsequence of commands whose dispatch environment lets the write
succeed (environments past the end of the list succeed). -/
def sentOf : List StepEnv → List Char → List Char
  | _, [] => []
  | [], cmd :: rest => cmd :: sentOf [] rest
  | StepEnv.okSend :: es, cmd :: rest => cmd :: sentOf es rest
  | StepEnv.disconnected :: es, _ :: rest => sentOf es rest
  | StepEnv.failSend :: es, _ :: rest => sentOf es rest

theorem updateLocalAngle_inBounds (c : Char) (s : JointState) (h : inBounds s) :
    inBounds (updateLocalAngle c s) := by
  unfold inBounds at h ⊢
  unfold updateLocalAngle updateAngleDisplay JointState.set
  split <;> simp_all <;> omega

theorem applyCommands_inBounds (cmds : List Char) :
    ∀ (s : JointState), inBounds s → inBounds (applyCommands cmds s) := by
  induction cmds with
  | nil => intro s h; exact h
  | cons c cs ih =>
    intro s h
    exact ih (updateLocalAngle c s) (updateLocalAngle_inBounds c s h)

theorem runCommands_spec (cmds : List Char) :
    ∀ (envs : List StepEnv) (s : CtrlState),
      (runCommands envs cmds s).sent = s.sent ++ sentOf envs cmds ∧
      (runCommands envs cmds s).joints = applyCommands (sentOf envs cmds) s.joints := by
  induction cmds with
  | nil =>
    intro envs s
    cases envs <;> simp [runCommands, sentOf, applyCommands]
  | cons c cs ih =>
    intro envs s
    cases envs with
    | nil =>
      simp only [runCommands, sentOf]
      constructor
      · rw [(ih [] _).1]; simp [sendCommandE, sendCommand]
      · rw [(ih [] _).2]; simp [sendCommandE, sendCommand, applyCommands]
    | cons e es =>
      cases e
      · simp only [runCommands, sentOf]
        constructor
        · rw [(ih es _).1]; simp [sendCommandE, sendCommand, addLog]
        · rw [(ih es _).2]; simp [sendCommandE, sendCommand, addLog]
      · simp only [runCommands, sentOf]
        constructor
        · rw [(ih es _).1]; simp [sendCommandE, sendCommand, addLog]
        · rw [(ih es _).2]; simp [sendCommandE, sendCommand, addLog]
      · simp only [runCommands, sentOf]
        constructor
        · rw [(ih es _).1]; simp [sendCommandE, sendCommand]
        · rw [(ih es _).2]; simp [sendCommandE, sendCommand, applyCommands]

theorem updateLocalAngle_not_token (c : Char) (hc : c ∉ commandTokens)
    (s : JointState) : updateLocalAngle c s = s := by
  unfold updateLocalAngle
  split <;> simp_all [commandTokens]

/-- C1 counterexample: starting from the initial in-bounds configuration,
running the Home preset leaves the shoulder at 90 degrees, outside its
range [120, 210] from the section-3 table, so the stored angles do not
stay within bounds under every controller operation. -/
theorem c1_home_breaks_shoulder_bound :
    inBounds initialCtrl.joints ∧
    (moveToHome [] initialCtrl).joints.shoulder = 90 ∧
    ¬ inBounds (moveToHome [] initialCtrl).joints := by decide

/-- C1 (amended): under every sequence of token applies through
updateLocalAngle, each joint angle that starts within its section-3
bounds stays within them; the invariant survives arbitrary
increment/decrement interleavings, though not the Home preset's final
explicit reset, which moves the shoulder below its minimum. -/
theorem c1_apply_preserves_bounds (cmds : List Char) (s : JointState)
    (h : inBounds s) : inBounds (applyCommands cmds s) :=
  applyCommands_inBounds cmds s h

theorem c1_apply_preserves_bounds_witness :
    inBounds (applyCommands ['A', 'B', 'C'] jointAngles) :=
  c1_apply_preserves_bounds ['A', 'B', 'C'] jointAngles (by decide)

/-- C2: running the Home sequence ends with every joint at exactly 90
degrees, from any starting configuration and whatever happens to the
individual sends, because moveToHome explicitly resets every displayed
angle to 90 after its command loop. -/
theorem c2_home_ends_at_canonical_pose (envs : List StepEnv) (s : CtrlState) :
    (moveToHome envs s).joints =
      { base := 90, shoulder := 90, elbow := 90, wrist := 90, gripper := 90 } :=
  rfl

/-- C5: when the transport write is rejected, sendCommand leaves the joint
model and the transmitted-byte list unchanged for that dispatch and
surfaces the failure as an error-severity log entry. -/
theorem c5_send_failure_leaves_model_unchanged (c : Char) (s : CtrlState) :
    (sendCommand true true false c s).joints = s.joints ∧
    (sendCommand true true false c s).sent = s.sent ∧
    (sendCommand true true false c s).log = s.log ++ [LogEntry.sendError c] ∧
    (LogEntry.sendError c).severity = Severity.error :=
  ⟨rfl, rfl, rfl, rfl⟩

/-- C7: dispatching any token while the device or characteristic global is
null fails by logging the not-connected error and has no other effect:
nothing is written to the transport and the joint model is unchanged. -/
theorem c7_not_connected_no_side_effect (dev rx ok : Bool) (c : Char)
    (s : CtrlState) (h : dev = false ∨ rx = false) :
    (sendCommand dev rx ok c s).joints = s.joints ∧
    (sendCommand dev rx ok c s).sent = s.sent ∧
    (sendCommand dev rx ok c s).log = s.log ++ [LogEntry.notConnectedError] ∧
    LogEntry.notConnectedError.severity = Severity.error := by
  have hcond : (!dev || !rx) = true := by
    rcases h with h | h <;> simp [h]
  simp [sendCommand, hcond, addLog, LogEntry.severity]

theorem c7_not_connected_no_side_effect_witness :
    (sendCommand false false true 'A' initialCtrl).joints = initialCtrl.joints :=
  (c7_not_connected_no_side_effect false false true 'A' initialCtrl (Or.inl rfl)).1

/-- C9: starting from the initial base angle of 90, one hundred
applications of the base-decrement token leave base at exactly 0, and
every further decrement application keeps it at exactly 0. -/
theorem c9_hundred_decrements_floor_at_zero (k : Nat) :
    ((updateLocalAngle 'B')^[100 + k] jointAngles).base = 0 := by
  have h9 : ((updateLocalAngle 'B')^[9] jointAngles).base = 0 := by decide
  have hstep : ∀ s : JointState, s.base = 0 → (updateLocalAngle 'B' s).base = 0 := by
    intro s h
    show max (s.base - 10) 0 = 0
    omega
  have hiter : ∀ n : Nat,
      ((updateLocalAngle 'B')^[n] ((updateLocalAngle 'B')^[9] jointAngles)).base = 0 := by
    intro n
    induction n with
    | zero => exact h9
    | succ m ih =>
      rw [Function.iterate_succ_apply']
      exact hstep _ ih
  have hsplit : 100 + k = (91 + k) + 9 := by omega
  rw [hsplit, Function.iterate_add_apply]
  exact hiter (91 + k)

/-- C10: a command character outside the ten-token set leaves every joint
angle unchanged, since the switch in updateLocalAngle has no default
branch, while a connected successful send of such a command still writes
its byte to the transport before that no-op update. -/
theorem c10_unknown_command_noop_update (c : Char) (hc : c ∉ commandTokens) :
    (∀ js : JointState, updateLocalAngle c js = js) ∧
    (∀ cs : CtrlState,
      (sendCommand true true true c cs).sent = cs.sent ++ [c] ∧
      (sendCommand true true true c cs).joints = cs.joints) := by
  constructor
  · exact fun js => updateLocalAngle_not_token c hc js
  · intro cs
    exact ⟨rfl, updateLocalAngle_not_token c hc cs.joints⟩

theorem c10_unknown_command_noop_update_witness :
    updateLocalAngle 'Z' jointAngles = jointAngles :=
  (c10_unknown_command_noop_update 'Z' (by decide)).1 jointAngles

/-- C3 counterexample: the first grab dispatch succeeds and moves the
shoulder from 130 to 120, the device then disconnects; the remaining
dispatches fail, yet the sequence still finishes by logging its success
message, and onDisconnected leaves the joint model untouched, so the
shoulder still reads 120 rather than its initial 130. -/
theorem c3_disconnect_keeps_state_and_completes :
    (moveToGrab (StepEnv.okSend :: List.replicate 9 StepEnv.disconnected)
        initialCtrl).joints.shoulder = 120 ∧
    jointAngles.shoulder = 130 ∧
    (onDisconnected
        ⟨true, true,
         moveToGrab (StepEnv.okSend :: List.replicate 9 StepEnv.disconnected)
           initialCtrl⟩).ctrl.joints.shoulder = 120 ∧
    (moveToGrab (StepEnv.okSend :: List.replicate 9 StepEnv.disconnected)
        initialCtrl).log.getLast? = some LogEntry.reachedGrab := by decide

/-- C3 (amended): onDisconnected clears the connection globals and logs
the state change, but it neither resets the joint model nor cancels a
running sequence: a grab run whose dispatches all find the device
disconnected writes nothing to the transport, leaves the joints exactly
as they were, and still ends by logging completion. -/
theorem c3_disconnect_behavior :
    (∀ s : AppState,
      (onDisconnected s).device = false ∧
      (onDisconnected s).rxCharacteristic = false ∧
      (onDisconnected s).ctrl.joints = s.ctrl.joints ∧
      (onDisconnected s).ctrl.sent = s.ctrl.sent ∧
      (onDisconnected s).ctrl.log = s.ctrl.log ++ [LogEntry.disconnectedNotice]) ∧
    (∀ cs : CtrlState,
      (moveToGrab (List.replicate 10 StepEnv.disconnected) cs).joints = cs.joints ∧
      (moveToGrab (List.replicate 10 StepEnv.disconnected) cs).sent = cs.sent ∧
      (moveToGrab (List.replicate 10 StepEnv.disconnected) cs).log.getLast? =
        some LogEntry.reachedGrab) := by
  constructor
  · intro s
    exact ⟨rfl, rfl, rfl, rfl, rfl⟩
  · intro cs
    refine ⟨?_, ?_, ?_⟩ <;>
      simp [moveToGrab, flattenSeq, grabSequence, runCommands, sendCommandE,
        sendCommand, addLog, List.replicate, List.getLast?_concat]

/-- C4 counterexample: dispatching the unknown token Z while connected
writes its byte to the transport and logs it as a successful send; no
invalid-token rejection happens before the transport interaction. -/
theorem c4_unknown_token_is_transmitted :
    ('Z' ∉ commandTokens) ∧
    (sendCommand true true true 'Z' initialCtrl).sent = ['Z'] ∧
    (sendCommand true true true 'Z' initialCtrl).log =
      [LogEntry.sentCommand 'Z'] := by decide

/-- C4 (amended): sendCommand performs no token validation: while
connected, a character outside the ten-token set is still written to the
transport and logged as sent, with the joint model simply unchanged; only
the keydown path filters unknown input, by dispatching nothing when the
key is outside keyMap. -/
theorem c4_no_token_validation (c : Char) (s : CtrlState)
    (hc : c ∉ commandTokens) (hk : keyMap c = none) :
    (sendCommand true true true c s).sent = s.sent ++ [c] ∧
    (sendCommand true true true c s).joints = s.joints ∧
    (∀ dev rx ok, keydownHandler dev rx ok c s = s) := by
  refine ⟨rfl, updateLocalAngle_not_token c hc s.joints, ?_⟩
  intro dev rx ok
  simp [keydownHandler, hk]

theorem c4_no_token_validation_witness :
    (sendCommand true true true 'Z' initialCtrl).joints = initialCtrl.joints :=
  (c4_no_token_validation 'Z' initialCtrl (by decide) (by decide)).2.1

/-- C6 counterexample: when the first grab dispatch fails, the remaining
nine commands are still written to the transport and the sequence still
logs completion; it does not stop after the failure. -/
theorem c6_sequence_continues_after_failure :
    (moveToGrab [StepEnv.failSend] initialCtrl).sent =
      ['D', 'D', 'E', 'E', 'J', 'J', 'J', 'J', 'J'] ∧
    LogEntry.sendError 'D' ∈ (moveToGrab [StepEnv.failSend] initialCtrl).log ∧
    (moveToGrab [StepEnv.failSend] initialCtrl).log.getLast? =
      some LogEntry.reachedGrab := by decide

/-- C6 (amended): a failed dispatch inside a preset sequence does not
abort the run: every remaining step is still dispatched under its own
environment and the sequence ends by logging completion, while the joint
model reflects exactly the commands whose writes succeeded, with no
rollback of mutations already applied. -/
theorem c6_model_reflects_sent (envs : List StepEnv) (cs : CtrlState) :
    ((moveToGrab envs cs).sent = cs.sent ++ sentOf envs (flattenSeq grabSequence) ∧
     (moveToGrab envs cs).joints =
       applyCommands (sentOf envs (flattenSeq grabSequence)) cs.joints ∧
     (moveToGrab envs cs).log.getLast? = some LogEntry.reachedGrab) ∧
    ((moveToReach envs cs).sent = cs.sent ++ sentOf envs (flattenSeq reachSequence) ∧
     (moveToReach envs cs).joints =
       applyCommands (sentOf envs (flattenSeq reachSequence)) cs.joints ∧
     (moveToReach envs cs).log.getLast? = some LogEntry.reachedReach) ∧
    (moveToHome envs cs).sent = cs.sent ++ sentOf envs homeCommands := by
  have hg := runCommands_spec (flattenSeq grabSequence) envs (addLog LogEntry.movingToGrab cs)
  have hr := runCommands_spec (flattenSeq reachSequence) envs (addLog LogEntry.movingToReach cs)
  have hh := runCommands_spec homeCommands envs (addLog LogEntry.movingToHome cs)
  exact ⟨⟨hg.1, hg.2, List.getLast?_concat _⟩,
         ⟨hr.1, hr.2, List.getLast?_concat _⟩, hh.1⟩

/-- C8 counterexample: from the reachable post-Home state, whose shoulder
reads 90, the shoulder-increment token stores 100, not the value 120 that
clamping 90 + 10 into the shoulder range [120, 210] would give, so the
stored value is not the two-sidedly clamped one. -/
theorem c8_unclamped_below_min :
    (updateLocalAngle 'C' (moveToHome [] initialCtrl).joints).shoulder = 100 ∧
    clampSpec ((moveToHome [] initialCtrl).joints.shoulder + 10)
      (specMinBound Joint.shoulder) (specMaxBound Joint.shoulder) = 120 ∧
    (100 : Int) ≠ 120 := by decide

/-- C8 (amended): on a state within the section-3 bounds, each of the ten
tokens updates exactly the joint named by the commandMap table, by plus
10 for an increment token and minus 10 for a decrement token clamped to
that joint's range, and leaves every other joint unchanged; outside the
bounds the code clamps only one-sidedly. -/
theorem c8_token_table_clamped (c : Char) (j : Joint) (inc : Bool)
    (hmap : commandMap c = some (j, inc)) (s : JointState) (hs : inBounds s) :
    (updateLocalAngle c s).get j =
      clampSpec (s.get j + (if inc then 10 else -10))
        (specMinBound j) (specMaxBound j) ∧
    ∀ j2, j2 ≠ j → (updateLocalAngle c s).get j2 = s.get j2 := by
  obtain ⟨h1, h2, h3, h4, h5, h6, h7, h8, h9, h10⟩ := hs
  unfold commandMap at hmap
  split at hmap <;>
    first
    | exact Option.noConfusion hmap
    | · simp only [Option.some.injEq, Prod.mk.injEq] at hmap
        obtain ⟨rfl, rfl⟩ := hmap
        refine ⟨?_, ?_⟩
        · simp [updateLocalAngle, updateAngleDisplay, JointState.set,
            JointState.get, clampSpec, specMinBound, specMaxBound]
          omega
        · intro j2 hj
          cases j2 <;>
            simp_all [updateLocalAngle, updateAngleDisplay, JointState.set,
              JointState.get]

theorem c8_token_table_clamped_witness :
    (updateLocalAngle 'A' jointAngles).get Joint.base =
      clampSpec (jointAngles.get Joint.base + (if true then 10 else -10))
        (specMinBound Joint.base) (specMaxBound Joint.base) :=
  (c8_token_table_clamped 'A' Joint.base true (by decide) jointAngles (by decide)).1
